import Mathlib

/-!
Verification of the `mortgage-schedule` loan amortization engine
(`src/classes/loan-amortization-schedule.ts` together with
`src/interfaces/loan-parameters.interface.ts`, `src/interfaces/statement.interface.ts`,
`src/interfaces/extra-payment.interface.ts` and `src/errors/loan-errors.ts`).

Embedding conventions:
* JavaScript numbers are modelled as exact rationals (`ℚ`); `x.toFixed(f)` followed by
  `parseFloat` is modelled by `roundTo f`, which rounds to the nearest multiple of
  `10 ^ (-f)` with ties toward `+∞` (ECMAScript `toFixed` picks the larger candidate
  integer on ties).
* `termInYears` is modelled as a natural number: per the specification the model works
  in whole months only, and `Math.pow(1 + r, n)` is rational only for integer `n`.
* The `for` loop of `generateAmortizationSchedule` becomes structural recursion on the
  number of remaining months (`fuel`); the loop runs `month = 1 .. totalMonths`, so the
  initial fuel is `totalMonths` and `month + fuel = totalMonths + 1` throughout.
* The class method `addExtraPayment` is embedded with explicit state passing: it returns
  the post-call state of the receiver together with the newly constructed instance, so
  that frame properties ("the receiver is not mutated") are expressible. The source never
  writes to `this`, hence the returned receiver state is the receiver itself.
* Thrown exceptions (`LoanValidationError`, `InvalidExtraPaymentError`) become an
  `Except LoanError` result.
-/

attribute [local semireducible] Rat.add Rat.mul Rat.sub Rat.inv Rat.ofScientific

deriving instance DecidableEq for Except

/-- Bridge lemma: `Rat.floor` (executable) agrees with the `Int.floor` of Mathlib. -/
theorem ratFloor_eq_intFloor (a : ℚ) : a.floor = ⌊a⌋ :=
  (Rat.floor_def' a).trans Rat.floor_def.symm

/-- Model of `parseFloat(x.toFixed(digits))`: round to `digits` decimal places, ties
toward `+∞` (the ECMAScript `toFixed` specification picks the larger candidate). -/
def roundTo (digits : ℕ) (x : ℚ) : ℚ := ((x * 10 ^ digits + 1 / 2).floor : ℚ) / 10 ^ digits

theorem roundTo_eq_floor (digits : ℕ) (x : ℚ) :
    roundTo digits x = ((⌊x * 10 ^ digits + 1 / 2⌋ : ℚ)) / 10 ^ digits := by
  rw [roundTo, ratFloor_eq_intFloor]

theorem roundTo_mono (digits : ℕ) {x y : ℚ} (h : x ≤ y) :
    roundTo digits x ≤ roundTo digits y := by
  rw [roundTo_eq_floor, roundTo_eq_floor]
  have hp : (0:ℚ) < 10 ^ digits := by positivity
  have h1 : x * 10 ^ digits + 1/2 ≤ y * 10 ^ digits + 1/2 := by nlinarith
  have h2 : ((⌊x * 10 ^ digits + 1/2⌋ : ℚ)) ≤ ((⌊y * 10 ^ digits + 1/2⌋ : ℚ)) := by
    exact_mod_cast Int.floor_le_floor h1
  exact (div_le_div_iff_of_pos_right hp).mpr h2

theorem roundTo_le (digits : ℕ) (x : ℚ) :
    roundTo digits x ≤ x + 1 / (2 * 10 ^ digits) := by
  rw [roundTo_eq_floor]
  have hp : (0:ℚ) < 10 ^ digits := by positivity
  have h1 : ((⌊x * 10 ^ digits + 1/2⌋ : ℚ)) ≤ x * 10 ^ digits + 1/2 := Int.floor_le _
  rw [div_le_iff₀ hp]
  calc ((⌊x * 10 ^ digits + 1/2⌋ : ℚ)) ≤ x * 10 ^ digits + 1/2 := h1
    _ = (x + 1 / (2 * 10 ^ digits)) * 10 ^ digits := by field_simp; ring

theorem lt_roundTo (digits : ℕ) (x : ℚ) :
    x - 1 / (2 * 10 ^ digits) < roundTo digits x := by
  rw [roundTo_eq_floor]
  have hp : (0:ℚ) < 10 ^ digits := by positivity
  have h1 : x * 10 ^ digits + 1/2 - 1 < ((⌊x * 10 ^ digits + 1/2⌋ : ℚ)) := by
    exact_mod_cast Int.sub_one_lt_floor _
  rw [lt_div_iff₀ hp]
  calc (x - 1 / (2 * 10 ^ digits)) * 10 ^ digits = x * 10 ^ digits + 1/2 - 1 := by
        field_simp; ring
    _ < _ := h1

theorem roundTo_zero (digits : ℕ) : roundTo digits 0 = 0 := by
  rw [roundTo_eq_floor]
  have : ⌊(0 : ℚ) * 10 ^ digits + 1/2⌋ = 0 := by
    rw [Int.floor_eq_zero_iff]
    constructor <;> norm_num
  rw [this]
  norm_num

theorem round2_add_cent (x : ℚ) : roundTo 2 (x + 1/100) = roundTo 2 x + 1/100 := by
  rw [roundTo_eq_floor, roundTo_eq_floor]
  have h : (x + 1/100) * 10 ^ 2 + 1/2 = (x * 10 ^ 2 + 1/2) + 1 := by ring
  rw [h, Int.floor_add_one]
  push_cast
  ring

theorem round2_cent : roundTo 2 (1/100) = 1/100 := by decide

theorem round2_nonneg {x : ℚ} (h : 0 ≤ x) : 0 ≤ roundTo 2 x := by
  have := roundTo_mono 2 h
  rwa [roundTo_zero] at this

/-- Interface `LoanParameters` (`loan-parameters.interface.ts`). The optional
`minimumPayment` becomes an `Option`. `termInYears` is a natural number (whole-months
model, see the header). -/
structure LoanParameters where
  assetValue : ℚ
  percentagePutDown : ℚ
  interestRate : ℚ
  termInYears : ℕ
  minimumPayment : Option ℚ
deriving DecidableEq, Repr

/-- Interface `ExtraPayment` (`extra-payment.interface.ts`). `startMonth` stays a raw
number; `addExtraPayment` checks `Number.isInteger` on it. -/
structure ExtraPayment where
  extraAmount : ℚ
  startMonth : ℚ
deriving DecidableEq, Repr

/-- The comparator `(a, b) => a.startMonth - b.startMonth` passed to
`Array.prototype.sort`, as an ordering relation. -/
def byStartMonth (a b : ExtraPayment) : Prop := a.startMonth ≤ b.startMonth

instance : DecidableRel byStartMonth :=
  fun a b => inferInstanceAs (Decidable (a.startMonth ≤ b.startMonth))

instance : IsTotal ExtraPayment byStartMonth := ⟨fun a b => le_total a.startMonth b.startMonth⟩

instance : IsTrans ExtraPayment byStartMonth := ⟨fun _ _ _ => le_trans⟩

/-- Interface `Statement` (`statement.interface.ts`): one output row per month. -/
structure Statement where
  month : ℕ
  startingBalance : ℚ
  payment : ℚ
  amountTowardInterest : ℚ
  amountTowardPrincipal : ℚ
  endingBalance : ℚ
  loanToValue : ℚ
  loanToValuePercentage : ℚ
  equityValue : ℚ
  equityPercentage : ℚ
deriving DecidableEq, Repr

/-- Error taxonomy of `loan-errors.ts`: `LoanValidationError` carries a message and the
offending field, `InvalidExtraPaymentError` carries a message. -/
inductive LoanError where
  | validation (message : String) (field : String)
  | invalidExtraPayment (message : String)
deriving DecidableEq, Repr

namespace LOAN_CONSTRAINTS

def MAX_TERM_YEARS : ℕ := 30
def MIN_TERM_YEARS : ℕ := 5
def MAX_INTEREST_RATE : ℚ := 30
def MIN_INTEREST_RATE : ℚ := 0
def MAX_ASSET_VALUE : ℚ := 1000000000
def MIN_ASSET_VALUE : ℚ := 1000

end LOAN_CONSTRAINTS

/-- Class `LoanAmortizationSchedule`: the amortization engine state (all fields are
`readonly` in the source). -/
structure LoanAmortizationSchedule where
  assetValue : ℚ
  percentagePutDown : ℚ
  loanAmount : ℚ
  interestRate : ℚ
  termInYears : ℕ
  minimumPayment : ℚ
  downPayment : ℚ
  extraPayments : List ExtraPayment
deriving DecidableEq, Repr

namespace LoanAmortizationSchedule

/-- `validateInputs` (source lines 139-195): the five checks in source order, each
failing with a `LoanValidationError` carrying the offending field name. -/
def validateInputs (params : LoanParameters) : Except LoanError Unit :=
  if params.assetValue ≤ LOAN_CONSTRAINTS.MIN_ASSET_VALUE then
    .error (.validation "Asset value must be at least $1,000." "assetValue")
  else if LOAN_CONSTRAINTS.MAX_ASSET_VALUE < params.assetValue then
    .error (.validation "Asset value cannot exceed $1,000,000,000." "assetValue")
  else if params.percentagePutDown < 0 ∨ 100 < params.percentagePutDown then
    .error (.validation "Percentage put down must be between 0 and 100." "percentagePutDown")
  else if params.interestRate < LOAN_CONSTRAINTS.MIN_INTEREST_RATE then
    .error (.validation "Interest rate cannot be negative." "interestRate")
  else if LOAN_CONSTRAINTS.MAX_INTEREST_RATE < params.interestRate then
    .error (.validation "Interest rate cannot exceed 30%." "interestRate")
  else if params.termInYears < LOAN_CONSTRAINTS.MIN_TERM_YEARS then
    .error (.validation "Loan term must be at least 5 years." "termInYears")
  else if LOAN_CONSTRAINTS.MAX_TERM_YEARS < params.termInYears then
    .error (.validation "Loan term cannot exceed 30 years." "termInYears")
  else
    match params.minimumPayment with
    | some m =>
      if m ≤ 0 then .error (.validation "Minimum payment must be greater than zero." "minimumPayment")
      else .ok ()
    | none => .ok ()

/-- `calculateDownPayment` (lines 200-204): `assetValue * (percentagePutDown / 100)`
rounded to cents. -/
def calculateDownPayment (assetValue percentagePutDown : ℚ) : ℚ :=
  roundTo 2 (assetValue * (percentagePutDown / 100))

/-- `calculateLoanAmount` (lines 209-211): asset value minus down payment, rounded. -/
def calculateLoanAmount (assetValue downPayment : ℚ) : ℚ :=
  roundTo 2 (assetValue - downPayment)

/-- `calculateStandardMonthlyPayment` (lines 225-242): annuity formula
`L r (1+r)^n / ((1+r)^n - 1)` rounded to cents, or `L / n` unrounded when the monthly
rate is zero. -/
def calculateStandardMonthlyPayment (loanAmount interestRate : ℚ) (termInYears : ℕ) : ℚ :=
  let monthlyRate := interestRate / 100 / 12
  let numberOfPayments : ℕ := termInYears * 12
  if monthlyRate = 0 then
    loanAmount / numberOfPayments
  else
    roundTo 2 ((loanAmount * monthlyRate * (1 + monthlyRate) ^ numberOfPayments) /
      ((1 + monthlyRate) ^ numberOfPayments - 1))

/-- The constructor (lines 113-131): validates, then derives `downPayment`,
`loanAmount` and `minimumPayment` (given override or computed standard payment), and
starts with an empty extra-payment list. -/
def construct (params : LoanParameters) : Except LoanError LoanAmortizationSchedule :=
  match validateInputs params with
  | .error e => .error e
  | .ok () =>
    let downPayment := calculateDownPayment params.assetValue params.percentagePutDown
    let loanAmount := calculateLoanAmount params.assetValue downPayment
    let minimumPayment :=
      match params.minimumPayment with
      | some m => m
      | none => calculateStandardMonthlyPayment loanAmount params.interestRate params.termInYears
    .ok { assetValue := params.assetValue
          percentagePutDown := params.percentagePutDown
          loanAmount := loanAmount
          interestRate := params.interestRate
          termInYears := params.termInYears
          minimumPayment := minimumPayment
          downPayment := downPayment
          extraPayments := [] }

/-- Local constant `totalMonths = this.termInYears * 12` used throughout the class. -/
def totalMonths (self : LoanAmortizationSchedule) : ℕ := self.termInYears * 12

/-- Local constant `monthlyInterestRate = this.interestRate / 100 / 12`. -/
def monthlyInterestRate (self : LoanAmortizationSchedule) : ℚ := self.interestRate / 100 / 12

/-- `calculateExtraPaymentsForMonth` (lines 394-398): sum of the amounts of every extra
payment whose `startMonth` has been reached. -/
def calculateExtraPaymentsForMonth (self : LoanAmortizationSchedule) (month : ℕ) : ℚ :=
  (self.extraPayments.filter fun ep => (month : ℚ) ≥ ep.startMonth).foldl
    (fun total ep => total + ep.extraAmount) 0

/-- `calculateEquityMetrics` (lines 403-419): loan-to-value (4 decimals), its
percentage (2 decimals), equity value (raw; rounded at emission) and equity
percentage (2 decimals). -/
def calculateEquityMetrics (self : LoanAmortizationSchedule) (endingBalance : ℚ) :
    ℚ × ℚ × ℚ × ℚ :=
  let loanToValue := roundTo 4 (endingBalance / self.assetValue)
  let loanToValuePercentage := roundTo 2 (loanToValue * 100)
  let equityValue := self.assetValue - endingBalance
  let equityPercentage := roundTo 2 ((equityValue / self.assetValue) * 100)
  (loanToValue, loanToValuePercentage, equityValue, equityPercentage)

/-- Payment before the final-payment clamp (lines 343-348): the standard monthly
payment, plus the applicable extra payments when `includeExtraPayments`. -/
def paymentBeforeClamp (self : LoanAmortizationSchedule) (includeExtraPayments : Bool)
    (month : ℕ) : ℚ :=
  self.minimumPayment +
    (if includeExtraPayments then self.calculateExtraPaymentsForMonth month else 0)

/-- The clamped payment of one loop iteration (lines 350-353): on the last scheduled
month, or when `startingBalance + interest ≤ payment`, the payment is replaced by
`startingBalance + interest`. -/
def clampedPayment (self : LoanAmortizationSchedule) (includeExtraPayments : Bool)
    (month : ℕ) (startingBalance : ℚ) : ℚ :=
  let interest := startingBalance * self.monthlyInterestRate
  let payment := self.paymentBeforeClamp includeExtraPayments month
  if month = self.totalMonths ∨ startingBalance + interest ≤ payment then
    startingBalance + interest
  else payment

/-- Raw ending balance of one loop iteration (lines 356-358):
`startingBalance - (payment - interest)`. -/
def nextBalance (self : LoanAmortizationSchedule) (includeExtraPayments : Bool)
    (month : ℕ) (startingBalance : ℚ) : ℚ :=
  startingBalance -
    (self.clampedPayment includeExtraPayments month startingBalance -
      startingBalance * self.monthlyInterestRate)

/-- The `Statement` pushed for one loop iteration (lines 356-380): the raw quantities
of the iteration with all monetary outputs rounded to cents. -/
def monthStatement (self : LoanAmortizationSchedule) (includeExtraPayments : Bool)
    (month : ℕ) (startingBalance : ℚ) : Statement :=
  let interest := startingBalance * self.monthlyInterestRate
  let payment := self.clampedPayment includeExtraPayments month startingBalance
  let amountTowardInterest := interest
  let amountTowardPrincipal := payment - amountTowardInterest
  let endingBalance := startingBalance - amountTowardPrincipal
  let metrics := self.calculateEquityMetrics endingBalance
  { month := month
    startingBalance := roundTo 2 startingBalance
    payment := roundTo 2 payment
    amountTowardInterest := roundTo 2 amountTowardInterest
    amountTowardPrincipal := roundTo 2 amountTowardPrincipal
    endingBalance := roundTo 2 endingBalance
    loanToValue := metrics.1
    loanToValuePercentage := metrics.2.1
    equityValue := roundTo 2 metrics.2.2.1
    equityPercentage := metrics.2.2.2 }

/-- The loop of `generateAmortizationSchedule` (lines 338-386), as structural recursion
on the remaining months: emit the month's `Statement`, stop early once the balance is
within one cent of zero (`balance <= 0.01`), otherwise continue with the raw ending
balance. -/
def scheduleFrom (self : LoanAmortizationSchedule) (includeExtraPayments : Bool) :
    ℕ → ℕ → ℚ → List Statement
  | _, 0, _ => []
  | month, fuel + 1, balance =>
    let endingBalance := self.nextBalance includeExtraPayments month balance
    let stmt := self.monthStatement includeExtraPayments month balance
    if endingBalance ≤ 1/100 then [stmt]
    else stmt :: scheduleFrom self includeExtraPayments (month + 1) fuel endingBalance

/-- `generateAmortizationSchedule` (lines 330-389): run the loop from month 1 with the
full loan amount; the loop bound `month <= totalMonths` gives initial fuel
`totalMonths`. -/
def generateAmortizationSchedule (self : LoanAmortizationSchedule)
    (includeExtraPayments : Bool) : List Statement :=
  scheduleFrom self includeExtraPayments 1 self.totalMonths self.loanAmount

/-- Raw balance entering month `k + 1` of the loop (the value of the mutable `balance`
variable after `k` iterations): `balanceAt self inc 0 = loanAmount` and each iteration
replaces it by the raw ending balance of the month. -/
def balanceAt (self : LoanAmortizationSchedule) (includeExtraPayments : Bool) : ℕ → ℚ
  | 0 => self.loanAmount
  | k + 1 => self.nextBalance includeExtraPayments (k + 1) (self.balanceAt includeExtraPayments k)

/-- `generateSchedule` (lines 307-309). -/
def generateSchedule (self : LoanAmortizationSchedule) : List Statement :=
  self.generateAmortizationSchedule false

/-- `generateAdjustedSchedule` (lines 316-322): with no extra payments recorded this is
the standard schedule; otherwise the extras are included. -/
def generateAdjustedSchedule (self : LoanAmortizationSchedule) : List Statement :=
  if self.extraPayments.length = 0 then self.generateAmortizationSchedule false
  else self.generateAmortizationSchedule true

/-- `addExtraPayment` (lines 253-300), with explicit state passing (see header): on
success the result is `(post-call receiver state, returned new instance)`. The new
instance is built through the constructor from the receiver's own parameters (which
re-validates them), then receives the combined, re-sorted extra-payment list. JavaScript
`Array.prototype.sort` is a stable sort, and every stable sort by the same key computes
the same list; it is embedded as the stable `List.insertionSort` by `startMonth`. -/
def addExtraPayment (self : LoanAmortizationSchedule) (extraAmount startMonth : ℚ) :
    Except LoanError (LoanAmortizationSchedule × LoanAmortizationSchedule) :=
  if extraAmount ≤ 0 then
    .error (.invalidExtraPayment "Extra payment amount must be greater than zero.")
  else if ¬ startMonth.den = 1 ∨ startMonth < 1 ∨ (self.totalMonths : ℚ) < startMonth then
    .error (.invalidExtraPayment
      ("Start month must be an integer between 1 and " ++ toString self.totalMonths ++ "."))
  else
    match construct { assetValue := self.assetValue
                      percentagePutDown := self.percentagePutDown
                      interestRate := self.interestRate
                      termInYears := self.termInYears
                      minimumPayment := some self.minimumPayment } with
    | .error e => .error e
    | .ok newInstance =>
      let newEntry : ExtraPayment := { extraAmount := extraAmount, startMonth := startMonth }
      let allExtraPayments := (self.extraPayments ++ [newEntry]).insertionSort byStartMonth
      let updated : LoanAmortizationSchedule := { newInstance with extraPayments := allExtraPayments }
      .ok (self, updated)

end LoanAmortizationSchedule

/-- Projection of the JavaScript `Date` values used by the engine: `getFullYear()` and
`getMonth()` (0-based month). -/
structure DateYM where
  year : ℤ
  month : ℤ
deriving DecidableEq, Repr

/-- Return record of `findPositionByDate` (lines 665-713). -/
structure LifecyclePosition where
  currentMonth : ℤ
  monthsElapsed : ℤ
  monthsRemaining : ℤ
  yearsRemaining : ℚ
  percentageComplete : ℚ
  percentageRemaining : ℚ
  statement : Option Statement
  currentBalance : ℚ
deriving DecidableEq, Repr

namespace LoanAmortizationSchedule

/-- `calculateMonthsBetween` (lines 718-722): `yearDiff * 12 + monthDiff`, day of month
ignored. -/
def calculateMonthsBetween (startDate endDate : DateYM) : ℤ :=
  (endDate.year - startDate.year) * 12 + (endDate.month - startDate.month)

/-- `findPositionByDate` (lines 665-713). `Math.min(monthsElapsed, schedule.length - 1)`
is `min` on `ℤ`; the JavaScript array access `schedule[currentMonth]` yields `undefined`
(here `none`) for a negative index. -/
def findPositionByDate (self : LoanAmortizationSchedule) (loanStartDate currentDate : DateYM) :
    LifecyclePosition :=
  let schedule := self.generateAdjustedSchedule
  let monthsElapsed := calculateMonthsBetween loanStartDate currentDate
  let currentMonth : ℤ := min monthsElapsed ((schedule.length : ℤ) - 1)
  let currentStatement : Option Statement :=
    if 0 ≤ currentMonth then schedule.get? currentMonth.toNat else none
  let monthsRemaining : ℤ := (schedule.length : ℤ) - currentMonth
  let yearsRemaining : ℚ := (monthsRemaining : ℚ) / 12
  let percentageComplete : ℚ := ((currentMonth : ℚ) / (schedule.length : ℚ)) * 100
  { currentMonth := currentMonth + 1
    monthsElapsed := monthsElapsed
    monthsRemaining := monthsRemaining
    yearsRemaining := yearsRemaining
    percentageComplete := percentageComplete
    percentageRemaining := 100 - percentageComplete
    statement := currentStatement
    currentBalance :=
      match currentStatement with
      | some st => st.endingBalance
      | none => self.loanAmount }

end LoanAmortizationSchedule

namespace LoanAmortizationSchedule

/-- Parameters of the zero-interest example loan: $1,200 asset, nothing down, 0%
interest, 5-year term, no payment override. -/
def paramsA : LoanParameters :=
  { assetValue := 1200, percentagePutDown := 0, interestRate := 0, termInYears := 5,
    minimumPayment := none }

/-- The engine constructed from `paramsA`: loan amount 1200, standard payment
`1200 / 60 = 20`. -/
def engineA : LoanAmortizationSchedule :=
  { assetValue := 1200, percentagePutDown := 0, loanAmount := 1200, interestRate := 0,
    termInYears := 5, minimumPayment := 20, downPayment := 0, extraPayments := [] }

/-- Parameters with a 100% down payment: accepted by validation, loan amount 0. -/
def paramsZ : LoanParameters :=
  { assetValue := 2000, percentagePutDown := 100, interestRate := 0, termInYears := 5,
    minimumPayment := none }

/-- The engine constructed from `paramsZ`: loan amount 0 and computed payment 0. -/
def engineZ : LoanAmortizationSchedule :=
  { assetValue := 2000, percentagePutDown := 100, loanAmount := 0, interestRate := 0,
    termInYears := 5, minimumPayment := 0, downPayment := 2000, extraPayments := [] }

/-- Parameters with a tiny minimum-payment override: $2,000 loan at 12% for 5 years
with a $1/month override (far below the ~$20 monthly interest). -/
def paramsM : LoanParameters :=
  { assetValue := 2000, percentagePutDown := 0, interestRate := 12, termInYears := 5,
    minimumPayment := some 1 }

/-- The engine constructed from `paramsM`. -/
def engineM : LoanAmortizationSchedule :=
  { assetValue := 2000, percentagePutDown := 0, loanAmount := 2000, interestRate := 12,
    termInYears := 5, minimumPayment := 1, downPayment := 0, extraPayments := [] }

end LoanAmortizationSchedule

namespace LoanAmortizationSchedule

/-- `engineA` after `addExtraPayment 5 60`: the only extra payment starts at the final
scheduled month. -/
def engineA60 : LoanAmortizationSchedule :=
  { engineA with extraPayments := [{ extraAmount := 5, startMonth := 60 }] }

/-- `engineA` after `addExtraPayment 5 1`: a $5 extra payment from month 1 on. -/
def engineA5 : LoanAmortizationSchedule :=
  { engineA with extraPayments := [{ extraAmount := 5, startMonth := 1 }] }

end LoanAmortizationSchedule

namespace LoanAmortizationSchedule

theorem scheduleFrom_succ (self : LoanAmortizationSchedule) (inc : Bool) (month fuel : ℕ)
    (b : ℚ) :
    scheduleFrom self inc month (fuel + 1) b =
      if self.nextBalance inc month b ≤ 1/100 then [self.monthStatement inc month b]
      else self.monthStatement inc month b ::
        scheduleFrom self inc (month + 1) fuel (self.nextBalance inc month b) := rfl

theorem scheduleFrom_ne_nil (self : LoanAmortizationSchedule) (inc : Bool) {fuel : ℕ}
    (month : ℕ) (b : ℚ) (h : 1 ≤ fuel) : scheduleFrom self inc month fuel b ≠ [] := by
  cases fuel with
  | zero => omega
  | succ f =>
    rw [scheduleFrom_succ]
    split <;> simp

theorem length_scheduleFrom_le (self : LoanAmortizationSchedule) (inc : Bool) :
    ∀ (fuel month : ℕ) (b : ℚ), (scheduleFrom self inc month fuel b).length ≤ fuel := by
  intro fuel
  induction fuel with
  | zero => intro month b; simp [scheduleFrom]
  | succ f ih =>
    intro month b
    rw [scheduleFrom_succ]
    split
    · simp
    · simpa using ih (month + 1) (self.nextBalance inc month b)

theorem clampedPayment_of_clamp (self : LoanAmortizationSchedule) (inc : Bool)
    (month : ℕ) (b : ℚ)
    (h : month = self.totalMonths ∨
      b + b * self.monthlyInterestRate ≤ self.paymentBeforeClamp inc month) :
    self.clampedPayment inc month b = b + b * self.monthlyInterestRate := by
  rw [clampedPayment, if_pos h]

theorem clampedPayment_of_not_clamp (self : LoanAmortizationSchedule) (inc : Bool)
    (month : ℕ) (b : ℚ)
    (h : ¬ (month = self.totalMonths ∨
      b + b * self.monthlyInterestRate ≤ self.paymentBeforeClamp inc month)) :
    self.clampedPayment inc month b = self.paymentBeforeClamp inc month := by
  rw [clampedPayment, if_neg h]

theorem nextBalance_of_clamp (self : LoanAmortizationSchedule) (inc : Bool)
    (month : ℕ) (b : ℚ)
    (h : month = self.totalMonths ∨
      b + b * self.monthlyInterestRate ≤ self.paymentBeforeClamp inc month) :
    self.nextBalance inc month b = 0 := by
  rw [nextBalance, clampedPayment_of_clamp self inc month b h]
  ring

theorem nextBalance_of_not_clamp (self : LoanAmortizationSchedule) (inc : Bool)
    (month : ℕ) (b : ℚ)
    (h : ¬ (month = self.totalMonths ∨
      b + b * self.monthlyInterestRate ≤ self.paymentBeforeClamp inc month)) :
    self.nextBalance inc month b =
      b + b * self.monthlyInterestRate - self.paymentBeforeClamp inc month := by
  rw [nextBalance, clampedPayment_of_not_clamp self inc month b h]
  ring

theorem nextBalance_nonneg (self : LoanAmortizationSchedule) (inc : Bool)
    (month : ℕ) (b : ℚ) : 0 ≤ self.nextBalance inc month b := by
  by_cases h : month = self.totalMonths ∨
      b + b * self.monthlyInterestRate ≤ self.paymentBeforeClamp inc month
  · rw [nextBalance_of_clamp self inc month b h]
  · rw [nextBalance_of_not_clamp self inc month b h]
    push_neg at h
    linarith [h.2]

theorem monthStatement_endingBalance (self : LoanAmortizationSchedule) (inc : Bool)
    (month : ℕ) (b : ℚ) :
    (self.monthStatement inc month b).endingBalance =
      roundTo 2 (self.nextBalance inc month b) := rfl

theorem monthStatement_payment (self : LoanAmortizationSchedule) (inc : Bool)
    (month : ℕ) (b : ℚ) :
    (self.monthStatement inc month b).payment =
      roundTo 2 (self.clampedPayment inc month b) := rfl

theorem monthStatement_month (self : LoanAmortizationSchedule) (inc : Bool)
    (month : ℕ) (b : ℚ) : (self.monthStatement inc month b).month = month := rfl

/-- Core invariant of the schedule loop: under the loop invariant
`month + fuel = totalMonths + 1`, the raw ending balance of the final emitted row lies
in `[0, 0.01]`, hence so does its rounded `endingBalance` field. -/
theorem scheduleFrom_getLast?_ending (self : LoanAmortizationSchedule) (inc : Bool) :
    ∀ (fuel month : ℕ) (b : ℚ), month + fuel = self.totalMonths + 1 →
      ∀ st, (scheduleFrom self inc month fuel b).getLast? = some st →
        0 ≤ st.endingBalance ∧ st.endingBalance ≤ 1/100 := by
  intro fuel
  induction fuel with
  | zero => intro month b _ st hst; simp [scheduleFrom] at hst
  | succ f ih =>
    intro month b hinv st hst
    rw [scheduleFrom_succ] at hst
    split at hst
    · next hstop =>
      simp only [List.getLast?_singleton, Option.some.injEq] at hst
      subst hst
      rw [monthStatement_endingBalance]
      have h0 : 0 ≤ self.nextBalance inc month b := nextBalance_nonneg self inc month b
      refine ⟨round2_nonneg h0, ?_⟩
      have := roundTo_mono 2 hstop
      rwa [round2_cent] at this
    · next hgt =>
      push_neg at hgt
      have hm : month ≠ self.totalMonths := by
        intro hEq
        have := nextBalance_of_clamp self inc month b (Or.inl hEq)
        rw [this] at hgt
        norm_num at hgt
      have hf : 1 ≤ f := by omega
      have hne := scheduleFrom_ne_nil self inc (month + 1) (self.nextBalance inc month b) hf
      rw [List.getLast?_cons, Option.some.injEq] at hst
      obtain ⟨st', hst'⟩ := Option.isSome_iff_exists.mp
        ((List.getLast?_isSome).mpr hne)
      rw [hst'] at hst
      simp only [Option.getD_some] at hst
      subst hst
      exact ih (month + 1) (self.nextBalance inc month b) (by omega) st' hst'

end LoanAmortizationSchedule

namespace LoanAmortizationSchedule

/-- Every row of the loop other than the final one is emitted with the unclamped
payment: its `payment` field is the rounded `paymentBeforeClamp` of its month, and its
`month` field is the position in the run. -/
theorem scheduleFrom_payment_of_not_last (self : LoanAmortizationSchedule) (inc : Bool) :
    ∀ (fuel month : ℕ) (b : ℚ) (k : ℕ) (st : Statement),
      (scheduleFrom self inc month fuel b).get? k = some st →
      k + 1 < (scheduleFrom self inc month fuel b).length →
      st.payment = roundTo 2 (self.paymentBeforeClamp inc (month + k)) ∧
        st.month = month + k := by
  intro fuel
  induction fuel with
  | zero => intro month b k st hst _; simp [scheduleFrom] at hst
  | succ f ih =>
    intro month b k st hst hlen
    rw [scheduleFrom_succ] at hst hlen
    by_cases hstop : self.nextBalance inc month b ≤ 1/100
    · rw [if_pos hstop] at hlen
      simp only [List.length_singleton] at hlen
      omega
    · rw [if_neg hstop] at hst hlen
      have hgt := not_le.mp hstop
      cases k with
      | zero =>
        simp only [List.get?_cons_zero, Option.some.injEq] at hst
        subst hst
        have hnc : ¬ (month = self.totalMonths ∨
            b + b * self.monthlyInterestRate ≤ self.paymentBeforeClamp inc month) := by
          intro hcl
          have := nextBalance_of_clamp self inc month b hcl
          rw [this] at hgt
          norm_num at hgt
        rw [Nat.add_zero]
        exact ⟨by rw [monthStatement_payment,
            clampedPayment_of_not_clamp self inc month b hnc],
          monthStatement_month self inc month b⟩
      | succ k' =>
        simp only [List.get?_cons_succ] at hst
        simp only [List.length_cons] at hlen
        obtain ⟨hpay', hmon⟩ := ih (month + 1) (self.nextBalance inc month b) k' st hst
          (by omega)
        have harg : month + 1 + k' = month + (k' + 1) := by omega
        rw [harg] at hpay' hmon
        exact ⟨hpay', hmon⟩

/-- Comparison of two runs of the loop: if the first run starts no higher, sees the
same monthly rate and total months, and pays at least as much every month, it finishes
no later than the second. -/
theorem scheduleFrom_length_le_of_dominates (e1 e2 : LoanAmortizationSchedule)
    (inc1 inc2 : Bool)
    (hrate : e1.monthlyInterestRate = e2.monthlyInterestRate)
    (hr0 : 0 ≤ e1.monthlyInterestRate)
    (htot : e1.totalMonths = e2.totalMonths)
    (hpay : ∀ m, e2.paymentBeforeClamp inc2 m ≤ e1.paymentBeforeClamp inc1 m) :
    ∀ (fuel month : ℕ) (b1 b2 : ℚ), b1 ≤ b2 →
      (scheduleFrom e1 inc1 month fuel b1).length ≤
        (scheduleFrom e2 inc2 month fuel b2).length := by
  intro fuel
  induction fuel with
  | zero => intro month b1 b2 _; simp [scheduleFrom]
  | succ f ih =>
    intro month b1 b2 hb
    rw [scheduleFrom_succ, scheduleFrom_succ]
    by_cases h1 : e1.nextBalance inc1 month b1 ≤ 1/100
    · rw [if_pos h1]
      have hne : (if e2.nextBalance inc2 month b2 ≤ 1/100
          then [e2.monthStatement inc2 month b2]
          else e2.monthStatement inc2 month b2 ::
            scheduleFrom e2 inc2 (month + 1) f (e2.nextBalance inc2 month b2)) ≠ [] := by
        split <;> simp
      have h2 := List.length_pos.mpr hne
      simp only [List.length_singleton]
      omega
    · rw [if_neg h1]
      push_neg at h1
      have hnc1 : ¬ (month = e1.totalMonths ∨
          b1 + b1 * e1.monthlyInterestRate ≤ e1.paymentBeforeClamp inc1 month) := by
        intro hcl
        have := nextBalance_of_clamp e1 inc1 month b1 hcl
        rw [this] at h1
        norm_num at h1
      push_neg at hnc1
      have hinterest : b1 * e1.monthlyInterestRate ≤ b2 * e2.monthlyInterestRate := by
        rw [← hrate]
        exact mul_le_mul_of_nonneg_right hb hr0
      have hnc2 : ¬ (month = e2.totalMonths ∨
          b2 + b2 * e2.monthlyInterestRate ≤ e2.paymentBeforeClamp inc2 month) := by
        rintro (hcl | hcl)
        · exact hnc1.1 (htot ▸ hcl)
        · have := hpay month
          have := hnc1.2
          linarith
      have hnb : e1.nextBalance inc1 month b1 ≤ e2.nextBalance inc2 month b2 := by
        rw [nextBalance_of_not_clamp e1 inc1 month b1 (by push_neg; exact hnc1),
          nextBalance_of_not_clamp e2 inc2 month b2 hnc2]
        have := hpay month
        linarith
      have h2 : ¬ (e2.nextBalance inc2 month b2 ≤ 1/100) := by
        intro hle
        exact absurd (le_trans hnb hle) (not_le.mpr h1)
      rw [if_neg h2]
      simp only [List.length_cons, Nat.add_le_add_iff_right]
      exact ih (month + 1) _ _ hnb

end LoanAmortizationSchedule

namespace LoanAmortizationSchedule

/-- Inversion of the constructor: a successfully constructed engine carries exactly the
validated parameters and the derived values. -/
theorem construct_fields (params : LoanParameters) (self : LoanAmortizationSchedule)
    (h : construct params = .ok self) :
    validateInputs params = .ok () ∧
    self.assetValue = params.assetValue ∧
    self.percentagePutDown = params.percentagePutDown ∧
    self.interestRate = params.interestRate ∧
    self.termInYears = params.termInYears ∧
    self.downPayment = calculateDownPayment params.assetValue params.percentagePutDown ∧
    self.loanAmount = calculateLoanAmount params.assetValue self.downPayment ∧
    self.minimumPayment = (match params.minimumPayment with
      | some m => m
      | none => calculateStandardMonthlyPayment self.loanAmount params.interestRate
          params.termInYears) ∧
    self.extraPayments = [] := by
  rw [construct] at h
  split at h
  · exact absurd h (by simp)
  · next hv =>
    simp only [Except.ok.injEq] at h
    subst h
    refine ⟨hv, rfl, rfl, rfl, rfl, rfl, rfl, ?_, rfl⟩
    rfl

/-- Successful validation is exactly the conjunction of the documented range
conditions. -/
theorem validateInputs_ok_iff (params : LoanParameters) :
    validateInputs params = .ok () ↔
      (LOAN_CONSTRAINTS.MIN_ASSET_VALUE < params.assetValue ∧
        params.assetValue ≤ LOAN_CONSTRAINTS.MAX_ASSET_VALUE ∧
        0 ≤ params.percentagePutDown ∧ params.percentagePutDown ≤ 100 ∧
        LOAN_CONSTRAINTS.MIN_INTEREST_RATE ≤ params.interestRate ∧
        params.interestRate ≤ LOAN_CONSTRAINTS.MAX_INTEREST_RATE ∧
        LOAN_CONSTRAINTS.MIN_TERM_YEARS ≤ params.termInYears ∧
        params.termInYears ≤ LOAN_CONSTRAINTS.MAX_TERM_YEARS ∧
        ∀ m, params.minimumPayment = some m → 0 < m) := by
  rw [validateInputs]
  split_ifs with h1 h2 h3 h4 h5 h6 h7
  · exact iff_of_false (by simp)
      (by rintro ⟨hc, -⟩; exact absurd hc (not_lt.mpr h1))
  · exact iff_of_false (by simp)
      (by rintro ⟨-, hc, -⟩; exact absurd h2 (not_lt.mpr hc))
  · refine iff_of_false (by simp) ?_
    rintro ⟨-, -, hc1, hc2, -⟩
    rcases h3 with h3 | h3
    · exact absurd h3 (not_lt.mpr hc1)
    · exact absurd h3 (not_lt.mpr hc2)
  · exact iff_of_false (by simp)
      (by rintro ⟨-, -, -, -, hc, -⟩; exact absurd h4 (not_lt.mpr hc))
  · exact iff_of_false (by simp)
      (by rintro ⟨-, -, -, -, -, hc, -⟩; exact absurd h5 (not_lt.mpr hc))
  · exact iff_of_false (by simp)
      (by rintro ⟨-, -, -, -, -, -, hc, -⟩; exact absurd h6 (not_lt.mpr hc))
  · exact iff_of_false (by simp)
      (by rintro ⟨-, -, -, -, -, -, -, hc, -⟩; exact absurd h7 (not_lt.mpr hc))
  · push_neg at h1 h2 h3 h4 h5 h6 h7
    cases hm : params.minimumPayment with
    | none =>
      simp only [hm]
      refine iff_of_true trivial ⟨h1, h2, h3.1, h3.2, h4, h5, h6, h7, ?_⟩
      intro m hm'
      exact absurd hm' (by simp)
    | some m =>
      simp only [hm]
      split_ifs with h8
      · refine iff_of_false (by simp) ?_
        rintro ⟨-, -, -, -, -, -, -, -, hc⟩
        exact absurd h8 (not_le.mpr (hc m rfl))
      · refine iff_of_true rfl ⟨h1, h2, h3.1, h3.2, h4, h5, h6, h7, ?_⟩
        intro m' hm'
        injection hm' with hmm
        subst hmm
        exact not_le.mp h8
end LoanAmortizationSchedule

namespace LoanAmortizationSchedule

theorem foldl_add_extraAmount (c : ℚ) (l : List ExtraPayment) :
    l.foldl (fun total ep => total + ep.extraAmount) c =
      c + (l.map ExtraPayment.extraAmount).sum := by
  induction l generalizing c with
  | nil => simp
  | cons e t ih => simp [ih, add_assoc]

theorem calculateExtraPaymentsForMonth_eq (self : LoanAmortizationSchedule) (month : ℕ) :
    self.calculateExtraPaymentsForMonth month =
      ((self.extraPayments.filter fun ep => (month : ℚ) ≥ ep.startMonth).map
        ExtraPayment.extraAmount).sum := by
  rw [calculateExtraPaymentsForMonth, foldl_add_extraAmount, zero_add]

theorem calculateExtraPaymentsForMonth_nonneg (self : LoanAmortizationSchedule)
    (month : ℕ) (hpos : ∀ ep ∈ self.extraPayments, 0 ≤ ep.extraAmount) :
    0 ≤ self.calculateExtraPaymentsForMonth month := by
  rw [calculateExtraPaymentsForMonth_eq]
  apply List.sum_nonneg
  intro x hx
  simp only [List.mem_map, List.mem_filter] at hx
  obtain ⟨ep, ⟨hmem, _⟩, rfl⟩ := hx
  exact hpos ep hmem

theorem le_calculateExtraPaymentsForMonth (self : LoanAmortizationSchedule) (month : ℕ)
    (ep₀ : ExtraPayment) (hmem : ep₀ ∈ self.extraPayments)
    (hstart : ep₀.startMonth ≤ (month : ℚ))
    (hpos : ∀ ep ∈ self.extraPayments, 0 ≤ ep.extraAmount) :
    ep₀.extraAmount ≤ self.calculateExtraPaymentsForMonth month := by
  rw [calculateExtraPaymentsForMonth_eq]
  apply List.single_le_sum
  · intro x hx
    simp only [List.mem_map, List.mem_filter] at hx
    obtain ⟨ep, ⟨hmem', _⟩, rfl⟩ := hx
    exact hpos ep hmem'
  · exact List.mem_map_of_mem _ (List.mem_filter.mpr ⟨hmem, by simpa using hstart⟩)

theorem paymentBeforeClamp_false (self : LoanAmortizationSchedule) (month : ℕ) :
    self.paymentBeforeClamp false month = self.minimumPayment := by
  simp [paymentBeforeClamp]

theorem paymentBeforeClamp_true (self : LoanAmortizationSchedule) (month : ℕ) :
    self.paymentBeforeClamp true month =
      self.minimumPayment + self.calculateExtraPaymentsForMonth month := by
  simp [paymentBeforeClamp]

/-- Inversion of a successful `addExtraPayment` call: the receiver state is returned
unchanged, the new instance carries the same parameters with the re-sorted combined
extra-payment list, and the arguments satisfied the validity checks. -/
theorem addExtraPayment_ok_inv (self : LoanAmortizationSchedule) (a s : ℚ)
    (pr : LoanAmortizationSchedule × LoanAmortizationSchedule)
    (h : self.addExtraPayment a s = .ok pr) :
    pr.1 = self ∧
    pr.2.assetValue = self.assetValue ∧
    pr.2.percentagePutDown = self.percentagePutDown ∧
    pr.2.interestRate = self.interestRate ∧
    pr.2.termInYears = self.termInYears ∧
    pr.2.minimumPayment = self.minimumPayment ∧
    pr.2.downPayment = calculateDownPayment self.assetValue self.percentagePutDown ∧
    pr.2.loanAmount = calculateLoanAmount self.assetValue
      (calculateDownPayment self.assetValue self.percentagePutDown) ∧
    pr.2.extraPayments = (self.extraPayments ++
      [({ extraAmount := a, startMonth := s } : ExtraPayment)]).insertionSort byStartMonth ∧
    0 < a ∧ s.den = 1 ∧ 1 ≤ s ∧ s ≤ (self.totalMonths : ℚ) := by
  rw [addExtraPayment] at h
  split at h
  · exact absurd h (by simp)
  · next ha =>
    split at h
    · exact absurd h (by simp)
    · next hs =>
      split at h
      · exact absurd h (by simp)
      · next newInstance hcon =>
        obtain ⟨-, hA, hP, hI, hT, hD, hL, hM, -⟩ :=
          construct_fields _ newInstance hcon
        simp only [Except.ok.injEq] at h
        subst h
        push_neg at ha hs
        refine ⟨rfl, hA, hP, hI, hT, ?_, ?_, ?_, rfl, ha, hs.1, hs.2.1, hs.2.2⟩
        · simpa using hM
        · simpa using hD
        · rw [hL, hD]

end LoanAmortizationSchedule

namespace LoanAmortizationSchedule

/-- C1: for every engine whose extra-payment list is empty (in particular every validly
constructed one), `generateAdjustedSchedule()` returns the very sequence returned by
`generateSchedule()`; no error is raised — the function is total and takes the
standard-schedule branch. -/
theorem generateAdjustedSchedule_of_no_extras (self : LoanAmortizationSchedule)
    (h : self.extraPayments = []) :
    self.generateAdjustedSchedule = self.generateSchedule := by
  rw [generateAdjustedSchedule, generateSchedule, h]
  simp

theorem generateAdjustedSchedule_of_no_extras_witness :
    engineA.generateAdjustedSchedule = engineA.generateSchedule :=
  generateAdjustedSchedule_of_no_extras engineA rfl

/-- C4: `addExtraPayment` never mutates its receiver: on success the returned receiver
state is the receiver itself, so its `generateSchedule()` output, base parameters and
extra-payment list are all unchanged (the new instance is carried separately in the
second component). -/
theorem addExtraPayment_does_not_mutate_receiver (self : LoanAmortizationSchedule)
    (a s : ℚ) (pr : LoanAmortizationSchedule × LoanAmortizationSchedule)
    (h : self.addExtraPayment a s = .ok pr) :
    pr.1 = self ∧
    pr.1.generateSchedule = self.generateSchedule ∧
    pr.1.assetValue = self.assetValue ∧
    pr.1.percentagePutDown = self.percentagePutDown ∧
    pr.1.interestRate = self.interestRate ∧
    pr.1.termInYears = self.termInYears ∧
    pr.1.minimumPayment = self.minimumPayment ∧
    pr.1.extraPayments = self.extraPayments := by
  obtain ⟨h1, -⟩ := addExtraPayment_ok_inv self a s pr h
  rw [h1]
  exact ⟨rfl, rfl, rfl, rfl, rfl, rfl, rfl, rfl⟩

theorem addExtraPayment_does_not_mutate_receiver_witness :
    (engineA, engineA60).1 = engineA ∧
    (engineA, engineA60).1.generateSchedule = engineA.generateSchedule ∧
    (engineA, engineA60).1.assetValue = engineA.assetValue ∧
    (engineA, engineA60).1.percentagePutDown = engineA.percentagePutDown ∧
    (engineA, engineA60).1.interestRate = engineA.interestRate ∧
    (engineA, engineA60).1.termInYears = engineA.termInYears ∧
    (engineA, engineA60).1.minimumPayment = engineA.minimumPayment ∧
    (engineA, engineA60).1.extraPayments = engineA.extraPayments :=
  addExtraPayment_does_not_mutate_receiver engineA 5 60 (engineA, engineA60) (by decide)

/-- C5 (counterexample): the parameters with a 100% down payment pass validation, yet
the derived loan amount is 0, not strictly positive. -/
theorem loanAmount_not_pos_at_full_percentage :
    construct paramsZ = .ok engineZ ∧ ¬ (0 < engineZ.loanAmount) :=
  ⟨by decide, by decide⟩

/-- C5 (amended): for every engine the constructor accepts, the derived loan amount is
nonnegative; it can be exactly 0 (percentagePutDown = 100). -/
theorem loanAmount_nonneg (params : LoanParameters) (self : LoanAmortizationSchedule)
    (h : construct params = .ok self) : 0 ≤ self.loanAmount := by
  obtain ⟨hv, -, -, -, -, hD, hL, -, -⟩ := construct_fields params self h
  rw [validateInputs_ok_iff] at hv
  obtain ⟨hA1, -, hp0, hp100, -⟩ := hv
  rw [hL, hD, calculateLoanAmount, calculateDownPayment]
  have hA0 : (0:ℚ) ≤ params.assetValue := by
    have : (1000:ℚ) < params.assetValue := by
      simpa [LOAN_CONSTRAINTS.MIN_ASSET_VALUE] using hA1
    linarith
  have hmul : params.assetValue * (params.percentagePutDown / 100) ≤ params.assetValue := by
    have h1 : params.percentagePutDown / 100 ≤ 1 := by linarith
    nlinarith
  have hdown : roundTo 2 (params.assetValue * (params.percentagePutDown / 100)) ≤
      roundTo 2 params.assetValue := roundTo_mono 2 hmul
  have hAr : roundTo 2 params.assetValue ≤ params.assetValue + 1/200 := by
    have := roundTo_le 2 params.assetValue
    norm_num at this
    linarith
  have hdiff : (-1/200 : ℚ) ≤ params.assetValue -
      roundTo 2 (params.assetValue * (params.percentagePutDown / 100)) := by linarith
  have hmono := roundTo_mono 2 hdiff
  have hz : roundTo 2 (-1/200 : ℚ) = 0 := by decide
  linarith [hmono, hz.symm.le]

theorem loanAmount_nonneg_witness : 0 ≤ engineA.loanAmount :=
  loanAmount_nonneg paramsA engineA (by decide)

end LoanAmortizationSchedule

namespace LoanAmortizationSchedule

/-- C6: construction fails with a `LoanValidationError` carrying the offending field
exactly under the documented conditions, checked in source order (the first failing
check decides the field and message); when every check passes, validation succeeds and
construction returns an engine. -/
theorem validation_order_and_conditions (p : LoanParameters) :
    (validateInputs p = .ok () ↔
      (LOAN_CONSTRAINTS.MIN_ASSET_VALUE < p.assetValue ∧
        p.assetValue ≤ LOAN_CONSTRAINTS.MAX_ASSET_VALUE ∧
        0 ≤ p.percentagePutDown ∧ p.percentagePutDown ≤ 100 ∧
        LOAN_CONSTRAINTS.MIN_INTEREST_RATE ≤ p.interestRate ∧
        p.interestRate ≤ LOAN_CONSTRAINTS.MAX_INTEREST_RATE ∧
        LOAN_CONSTRAINTS.MIN_TERM_YEARS ≤ p.termInYears ∧
        p.termInYears ≤ LOAN_CONSTRAINTS.MAX_TERM_YEARS ∧
        ∀ m, p.minimumPayment = some m → 0 < m)) ∧
    (p.assetValue ≤ LOAN_CONSTRAINTS.MIN_ASSET_VALUE →
      validateInputs p = .error (.validation "Asset value must be at least $1,000." "assetValue")) ∧
    (LOAN_CONSTRAINTS.MIN_ASSET_VALUE < p.assetValue →
      LOAN_CONSTRAINTS.MAX_ASSET_VALUE < p.assetValue →
      validateInputs p = .error (.validation "Asset value cannot exceed $1,000,000,000." "assetValue")) ∧
    (LOAN_CONSTRAINTS.MIN_ASSET_VALUE < p.assetValue →
      p.assetValue ≤ LOAN_CONSTRAINTS.MAX_ASSET_VALUE →
      (p.percentagePutDown < 0 ∨ 100 < p.percentagePutDown) →
      validateInputs p = .error (.validation "Percentage put down must be between 0 and 100." "percentagePutDown")) ∧
    (LOAN_CONSTRAINTS.MIN_ASSET_VALUE < p.assetValue →
      p.assetValue ≤ LOAN_CONSTRAINTS.MAX_ASSET_VALUE →
      0 ≤ p.percentagePutDown → p.percentagePutDown ≤ 100 →
      p.interestRate < LOAN_CONSTRAINTS.MIN_INTEREST_RATE →
      validateInputs p = .error (.validation "Interest rate cannot be negative." "interestRate")) ∧
    (LOAN_CONSTRAINTS.MIN_ASSET_VALUE < p.assetValue →
      p.assetValue ≤ LOAN_CONSTRAINTS.MAX_ASSET_VALUE →
      0 ≤ p.percentagePutDown → p.percentagePutDown ≤ 100 →
      LOAN_CONSTRAINTS.MIN_INTEREST_RATE ≤ p.interestRate →
      LOAN_CONSTRAINTS.MAX_INTEREST_RATE < p.interestRate →
      validateInputs p = .error (.validation "Interest rate cannot exceed 30%." "interestRate")) ∧
    (LOAN_CONSTRAINTS.MIN_ASSET_VALUE < p.assetValue →
      p.assetValue ≤ LOAN_CONSTRAINTS.MAX_ASSET_VALUE →
      0 ≤ p.percentagePutDown → p.percentagePutDown ≤ 100 →
      LOAN_CONSTRAINTS.MIN_INTEREST_RATE ≤ p.interestRate →
      p.interestRate ≤ LOAN_CONSTRAINTS.MAX_INTEREST_RATE →
      p.termInYears < LOAN_CONSTRAINTS.MIN_TERM_YEARS →
      validateInputs p = .error (.validation "Loan term must be at least 5 years." "termInYears")) ∧
    (LOAN_CONSTRAINTS.MIN_ASSET_VALUE < p.assetValue →
      p.assetValue ≤ LOAN_CONSTRAINTS.MAX_ASSET_VALUE →
      0 ≤ p.percentagePutDown → p.percentagePutDown ≤ 100 →
      LOAN_CONSTRAINTS.MIN_INTEREST_RATE ≤ p.interestRate →
      p.interestRate ≤ LOAN_CONSTRAINTS.MAX_INTEREST_RATE →
      LOAN_CONSTRAINTS.MIN_TERM_YEARS ≤ p.termInYears →
      LOAN_CONSTRAINTS.MAX_TERM_YEARS < p.termInYears →
      validateInputs p = .error (.validation "Loan term cannot exceed 30 years." "termInYears")) ∧
    (LOAN_CONSTRAINTS.MIN_ASSET_VALUE < p.assetValue →
      p.assetValue ≤ LOAN_CONSTRAINTS.MAX_ASSET_VALUE →
      0 ≤ p.percentagePutDown → p.percentagePutDown ≤ 100 →
      LOAN_CONSTRAINTS.MIN_INTEREST_RATE ≤ p.interestRate →
      p.interestRate ≤ LOAN_CONSTRAINTS.MAX_INTEREST_RATE →
      LOAN_CONSTRAINTS.MIN_TERM_YEARS ≤ p.termInYears →
      p.termInYears ≤ LOAN_CONSTRAINTS.MAX_TERM_YEARS →
      ∀ m, p.minimumPayment = some m → m ≤ 0 →
      validateInputs p = .error (.validation "Minimum payment must be greater than zero." "minimumPayment")) ∧
    (validateInputs p = .ok () → ∃ eng, construct p = .ok eng) := by
  refine ⟨validateInputs_ok_iff p, ?_, ?_, ?_, ?_, ?_, ?_, ?_, ?_, ?_⟩
  · intro h1
    rw [validateInputs, if_pos h1]
  · intro h1 h2
    rw [validateInputs, if_neg (not_le.mpr h1), if_pos h2]
  · intro h1 h2 h3
    rw [validateInputs, if_neg (not_le.mpr h1), if_neg (not_lt.mpr h2), if_pos h3]
  · intro h1 h2 h3 h4 h5
    rw [validateInputs, if_neg (not_le.mpr h1), if_neg (not_lt.mpr h2),
      if_neg (by push_neg; exact ⟨h3, h4⟩), if_pos h5]
  · intro h1 h2 h3 h4 h5 h6
    rw [validateInputs, if_neg (not_le.mpr h1), if_neg (not_lt.mpr h2),
      if_neg (by push_neg; exact ⟨h3, h4⟩), if_neg (not_lt.mpr h5), if_pos h6]
  · intro h1 h2 h3 h4 h5 h6 h7
    rw [validateInputs, if_neg (not_le.mpr h1), if_neg (not_lt.mpr h2),
      if_neg (by push_neg; exact ⟨h3, h4⟩), if_neg (not_lt.mpr h5),
      if_neg (not_lt.mpr h6), if_pos h7]
  · intro h1 h2 h3 h4 h5 h6 h7 h8
    rw [validateInputs, if_neg (not_le.mpr h1), if_neg (not_lt.mpr h2),
      if_neg (by push_neg; exact ⟨h3, h4⟩), if_neg (not_lt.mpr h5),
      if_neg (not_lt.mpr h6), if_neg (not_lt.mpr h7), if_pos h8]
  · intro h1 h2 h3 h4 h5 h6 h7 h8 m hm hm0
    rw [validateInputs, if_neg (not_le.mpr h1), if_neg (not_lt.mpr h2),
      if_neg (by push_neg; exact ⟨h3, h4⟩), if_neg (not_lt.mpr h5),
      if_neg (not_lt.mpr h6), if_neg (not_lt.mpr h7), if_neg (not_lt.mpr h8)]
    simp only [hm]
    rw [if_pos hm0]
  · intro hv
    cases hc : construct p with
    | ok eng => exact ⟨eng, rfl⟩
    | error e =>
      rw [construct] at hc
      rw [hv] at hc
      exact absurd hc (by simp)

/-- Parameters whose asset value is below the minimum, for the validation witness. -/
def paramsLow : LoanParameters :=
  { assetValue := 500, percentagePutDown := 0, interestRate := 0, termInYears := 5,
    minimumPayment := none }

theorem validation_order_and_conditions_witness :
    validateInputs paramsLow =
      .error (.validation "Asset value must be at least $1,000." "assetValue") :=
  (validation_order_and_conditions paramsLow).2.1 (by decide)

end LoanAmortizationSchedule

namespace LoanAmortizationSchedule

/-- C2: every validly constructed engine without a minimum-payment override generates a
standard schedule of at most `termInYears * 12` rows whose final row's `endingBalance`
equals 0 within the engine's one-cent tolerance. -/
theorem generateSchedule_length_and_final_balance (params : LoanParameters)
    (self : LoanAmortizationSchedule) (_hok : construct params = .ok self)
    (_hnone : params.minimumPayment = none) :
    self.generateSchedule.length ≤ self.termInYears * 12 ∧
    ∀ st, self.generateSchedule.getLast? = some st →
      0 ≤ st.endingBalance ∧ st.endingBalance ≤ 1/100 := by
  constructor
  · exact length_scheduleFrom_le self false self.totalMonths 1 self.loanAmount
  · intro st hst
    exact scheduleFrom_getLast?_ending self false self.totalMonths 1 self.loanAmount
      (by omega) st hst

theorem generateSchedule_length_and_final_balance_witness :
    engineA.generateSchedule.length ≤ engineA.termInYears * 12 ∧
    ∀ st, engineA.generateSchedule.getLast? = some st →
      0 ≤ st.endingBalance ∧ st.endingBalance ≤ 1/100 :=
  generateSchedule_length_and_final_balance paramsA engineA (by decide) rfl

set_option maxRecDepth 100000 in
/-- C8 (counterexample): with a current date two years before the loan start date,
`monthsElapsed` is −24 and the internal schedule index (the returned 1-based
`currentMonth` minus 1) is −24 as well — negative, hence outside
`[0, scheduleLength − 1]`. -/
theorem findPositionByDate_negative_index :
    (engineA.findPositionByDate ⟨2022, 0⟩ ⟨2020, 0⟩).monthsElapsed = -24 ∧
    (engineA.findPositionByDate ⟨2022, 0⟩ ⟨2020, 0⟩).currentMonth - 1 = -24 ∧
    ¬ (0 ≤ (engineA.findPositionByDate ⟨2022, 0⟩ ⟨2020, 0⟩).currentMonth - 1) :=
  ⟨by decide, by decide, by decide⟩

/-- C8 (amended): `findPositionByDate` computes `monthsElapsed = yearDiff*12 + monthDiff`
(day of month ignored); the internal index is always at most `scheduleLength − 1`, and it
lies in `[0, scheduleLength − 1]` whenever `monthsElapsed ≥ 0` — when the current date
precedes the loan start the index is negative, since `Math.min` only clamps from above. -/
theorem findPositionByDate_monthsElapsed_and_index (self : LoanAmortizationSchedule)
    (d1 d2 : DateYM) (hlen : 1 ≤ self.generateAdjustedSchedule.length) :
    (self.findPositionByDate d1 d2).monthsElapsed =
      (d2.year - d1.year) * 12 + (d2.month - d1.month) ∧
    (self.findPositionByDate d1 d2).currentMonth - 1 ≤
      (self.generateAdjustedSchedule.length : ℤ) - 1 ∧
    (0 ≤ (self.findPositionByDate d1 d2).monthsElapsed →
      0 ≤ (self.findPositionByDate d1 d2).currentMonth - 1 ∧
      (self.findPositionByDate d1 d2).currentMonth - 1 ≤
        (self.generateAdjustedSchedule.length : ℤ) - 1) := by
  refine ⟨?_, ?_, ?_⟩
  · simp only [findPositionByDate]
    rfl
  · simp only [findPositionByDate]
    omega
  · simp only [findPositionByDate]
    intro hme
    omega

theorem findPositionByDate_monthsElapsed_and_index_witness :
    (engineA.findPositionByDate ⟨2020, 0⟩ ⟨2022, 5⟩).monthsElapsed =
      ((2022 : ℤ) - 2020) * 12 + ((5 : ℤ) - 0) ∧
    (engineA.findPositionByDate ⟨2020, 0⟩ ⟨2022, 5⟩).currentMonth - 1 ≤
      (engineA.generateAdjustedSchedule.length : ℤ) - 1 ∧
    (0 ≤ (engineA.findPositionByDate ⟨2020, 0⟩ ⟨2022, 5⟩).monthsElapsed →
      0 ≤ (engineA.findPositionByDate ⟨2020, 0⟩ ⟨2022, 5⟩).currentMonth - 1 ∧
      (engineA.findPositionByDate ⟨2020, 0⟩ ⟨2022, 5⟩).currentMonth - 1 ≤
        (engineA.generateAdjustedSchedule.length : ℤ) - 1) :=
  findPositionByDate_monthsElapsed_and_index engineA ⟨2020, 0⟩ ⟨2022, 5⟩
    (by set_option maxRecDepth 100000 in decide)

set_option maxRecDepth 100000 in
/-- C9 (counterexample): the fallback branch of `findPositionByDate` is reachable: with
a current date before the loan start, the returned `statement` is null and
`currentBalance` falls back to the loan amount. -/
theorem findPositionByDate_fallback_reachable :
    (engineA.findPositionByDate ⟨2022, 0⟩ ⟨2020, 0⟩).statement = none ∧
    (engineA.findPositionByDate ⟨2022, 0⟩ ⟨2020, 0⟩).currentBalance = engineA.loanAmount :=
  ⟨by decide, by decide⟩

/-- C9 (amended): every engine with a positive term produces nonempty schedules (the
loop always emits a row before any exit), so the division by `schedule.length` in
`findPositionByDate` is never a division by zero; the null-statement fallback is
unreachable whenever `monthsElapsed ≥ 0`, i.e. whenever the current date is not before
the loan start. -/
theorem schedules_nonempty_and_fallback (self : LoanAmortizationSchedule)
    (ht : 1 ≤ self.termInYears) :
    self.generateSchedule ≠ [] ∧
    self.generateAdjustedSchedule ≠ [] ∧
    1 ≤ self.generateAdjustedSchedule.length ∧
    (∀ d1 d2 : DateYM, 0 ≤ calculateMonthsBetween d1 d2 →
      (self.findPositionByDate d1 d2).statement.isSome) := by
  have hfuel : 1 ≤ self.totalMonths := by
    rw [totalMonths]; omega
  have hstd : self.generateSchedule ≠ [] :=
    scheduleFrom_ne_nil self false 1 self.loanAmount hfuel
  have hadj : self.generateAdjustedSchedule ≠ [] := by
    rw [generateAdjustedSchedule]
    split
    · exact scheduleFrom_ne_nil self false 1 self.loanAmount hfuel
    · exact scheduleFrom_ne_nil self true 1 self.loanAmount hfuel
  have hlen : 1 ≤ self.generateAdjustedSchedule.length := List.length_pos.mpr hadj
  refine ⟨hstd, hadj, hlen, ?_⟩
  intro d1 d2 hme
  simp only [findPositionByDate]
  have hmin0 : 0 ≤ min (calculateMonthsBetween d1 d2)
      ((self.generateAdjustedSchedule.length : ℤ) - 1) := by
    omega
  rw [if_pos hmin0]
  have hlt : (min (calculateMonthsBetween d1 d2)
      ((self.generateAdjustedSchedule.length : ℤ) - 1)).toNat <
      self.generateAdjustedSchedule.length := by
    omega
  rw [List.get?_eq_get hlt]
  rfl

theorem schedules_nonempty_and_fallback_witness :
    engineA.generateSchedule ≠ [] ∧
    engineA.generateAdjustedSchedule ≠ [] ∧
    1 ≤ engineA.generateAdjustedSchedule.length ∧
    (∀ d1 d2 : DateYM, 0 ≤ calculateMonthsBetween d1 d2 →
      (engineA.findPositionByDate d1 d2).statement.isSome) :=
  schedules_nonempty_and_fallback engineA (by decide)

end LoanAmortizationSchedule

namespace LoanAmortizationSchedule

/-- C7 (counterexample): on the validly constructed engine with a 100% down payment the
stored minimum payment is 0; `addExtraPayment 10 5` satisfies every condition of the
claim — positive amount, integer start month inside `[1, totalMonths]` — yet the call
fails, and with a `LoanValidationError` (field `minimumPayment`) raised by the internal
re-construction, not an `InvalidExtraPaymentError`, and no new engine is returned. -/
theorem addExtraPayment_revalidation_failure :
    construct paramsZ = .ok engineZ ∧
    (0 < (10:ℚ)) ∧ ((5:ℚ).den = 1) ∧ (1 ≤ (5:ℚ)) ∧ ((5:ℚ) ≤ (engineZ.totalMonths : ℚ)) ∧
    engineZ.addExtraPayment 10 5 =
      .error (.validation "Minimum payment must be greater than zero." "minimumPayment") :=
  ⟨by decide, by norm_num, by decide, by norm_num, by decide, by decide⟩

/-- C7 (amended): provided the receiver's own stored parameters re-validate (in
particular its stored `minimumPayment` is positive — automatic when a positive override
was given, but an engine whose computed payment is 0 fails with a `LoanValidationError`
instead), `addExtraPayment(amount, startMonth)` fails with an
`InvalidExtraPaymentError` exactly when `amount ≤ 0`, or `startMonth` is not an integer,
is below 1 or exceeds `totalMonths` — the start-month message stating the valid range —
and otherwise returns a new engine whose extra-payment list is the old list plus the new
entry, stably sorted ascending by `startMonth`. -/
theorem addExtraPayment_conditions_and_result (self : LoanAmortizationSchedule)
    (a s : ℚ)
    (hv : validateInputs ⟨self.assetValue, self.percentagePutDown, self.interestRate,
      self.termInYears, some self.minimumPayment⟩ = .ok ()) :
    (a ≤ 0 → self.addExtraPayment a s =
      .error (.invalidExtraPayment "Extra payment amount must be greater than zero.")) ∧
    (0 < a → (¬ s.den = 1 ∨ s < 1 ∨ (self.totalMonths : ℚ) < s) →
      self.addExtraPayment a s = .error (.invalidExtraPayment
        ("Start month must be an integer between 1 and " ++
          toString self.totalMonths ++ "."))) ∧
    (0 < a → s.den = 1 → 1 ≤ s → s ≤ (self.totalMonths : ℚ) →
      ∃ newE, self.addExtraPayment a s = .ok (self, newE) ∧
        newE.extraPayments = (self.extraPayments ++
          [({ extraAmount := a, startMonth := s } : ExtraPayment)]).insertionSort
            byStartMonth ∧
        newE.extraPayments.Pairwise byStartMonth ∧
        newE.extraPayments.Perm (self.extraPayments ++
          [({ extraAmount := a, startMonth := s } : ExtraPayment)]) ∧
        newE.assetValue = self.assetValue ∧
        newE.percentagePutDown = self.percentagePutDown ∧
        newE.interestRate = self.interestRate ∧
        newE.termInYears = self.termInYears ∧
        newE.minimumPayment = self.minimumPayment) := by
  refine ⟨?_, ?_, ?_⟩
  · intro ha
    rw [addExtraPayment, if_pos ha]
  · intro ha hbad
    rw [addExtraPayment, if_neg (not_le.mpr ha), if_pos hbad]
  · intro ha hden h1s hsT
    cases hres : self.addExtraPayment a s with
    | error e =>
      exfalso
      rw [addExtraPayment, if_neg (not_le.mpr ha),
        if_neg (by push_neg; exact ⟨hden, h1s, hsT⟩)] at hres
      split at hres
      · next hcon =>
        rw [construct, hv] at hcon
        exact absurd hcon (by simp)
      · exact absurd hres (by simp)
    | ok pr =>
      obtain ⟨h1, hA, hP, hI, hT, hM, -, -, hE, -⟩ :=
        addExtraPayment_ok_inv self a s pr hres
      refine ⟨pr.2, ?_, hE, ?_, ?_, hA, hP, hI, hT, hM⟩
      · congr 1
        exact Prod.ext h1 rfl
      · rw [hE]
        exact List.sorted_insertionSort byStartMonth _
      · rw [hE]
        exact List.perm_insertionSort byStartMonth _

theorem addExtraPayment_conditions_and_result_witness :
    ∃ newE, engineA.addExtraPayment 5 3 = .ok (engineA, newE) ∧
      newE.extraPayments = (engineA.extraPayments ++
        [({ extraAmount := 5, startMonth := 3 } : ExtraPayment)]).insertionSort
          byStartMonth ∧
      newE.extraPayments.Pairwise byStartMonth ∧
      newE.extraPayments.Perm (engineA.extraPayments ++
        [({ extraAmount := 5, startMonth := 3 } : ExtraPayment)]) ∧
      newE.assetValue = engineA.assetValue ∧
      newE.percentagePutDown = engineA.percentagePutDown ∧
      newE.interestRate = engineA.interestRate ∧
      newE.termInYears = engineA.termInYears ∧
      newE.minimumPayment = engineA.minimumPayment :=
  (addExtraPayment_conditions_and_result engineA 5 3 (by decide)).2.2
    (by norm_num) (by decide) (by norm_num) (by decide)

end LoanAmortizationSchedule

namespace LoanAmortizationSchedule

set_option maxRecDepth 100000 in
/-- C3 (counterexample): adding a $5 extra payment starting at the final scheduled
month (60) leaves the adjusted schedule the same length as the standard one (60 = 60,
not strictly shorter), and the row at the start month is identical — its payment is not
strictly larger, because the final-payment clamp replaces the payment in that month. -/
theorem extra_payment_without_strict_effect :
    engineA.addExtraPayment 5 60 = .ok (engineA, engineA60) ∧
    (engineA60.generateAdjustedSchedule).length = 60 ∧
    (engineA.generateSchedule).length = 60 ∧
    ¬ ((engineA60.generateAdjustedSchedule).length < (engineA.generateSchedule).length) ∧
    (engineA60.generateAdjustedSchedule).get? 59 = (engineA.generateSchedule).get? 59 :=
  ⟨by decide, by decide, by decide, by decide, by decide⟩

/-- C3 (amended): for a well-formed engine (derived fields consistent, nonnegative rate
and extra amounts) and an extra payment of at least one cent accepted by
`addExtraPayment`, the adjusted schedule of the returned engine is never longer than
the receiver's standard schedule, and every adjusted row from `startMonth` onward other
than the final row carries a payment at least one cent larger than the corresponding
standard-schedule row's payment. -/
theorem extra_payment_shortens_and_raises (self : LoanAmortizationSchedule)
    (a s : ℚ) (pr : LoanAmortizationSchedule × LoanAmortizationSchedule)
    (haep : self.addExtraPayment a s = .ok pr)
    (hcent : 1/100 ≤ a)
    (hr0 : 0 ≤ self.interestRate)
    (hpos : ∀ ep ∈ self.extraPayments, 0 ≤ ep.extraAmount)
    (hdp : self.downPayment = calculateDownPayment self.assetValue self.percentagePutDown)
    (hla : self.loanAmount = calculateLoanAmount self.assetValue self.downPayment) :
    (pr.2.generateAdjustedSchedule).length ≤ (self.generateSchedule).length ∧
    ∀ k st1, (pr.2.generateAdjustedSchedule).get? k = some st1 →
      k + 1 < (pr.2.generateAdjustedSchedule).length →
      s ≤ ((k + 1 : ℕ) : ℚ) →
      ∃ st2, (self.generateSchedule).get? k = some st2 ∧
        st2.payment + 1/100 ≤ st1.payment := by
  obtain ⟨-, -, -, hI, hT, hM, -, hL2, hE, -, -, -, -⟩ :=
    addExtraPayment_ok_inv self a s pr haep
  have hrate : pr.2.monthlyInterestRate = self.monthlyInterestRate := by
    rw [monthlyInterestRate, monthlyInterestRate, hI]
  have hr0' : 0 ≤ pr.2.monthlyInterestRate := by
    rw [hrate, monthlyInterestRate]
    positivity
  have htot : pr.2.totalMonths = self.totalMonths := by
    rw [totalMonths, totalMonths, hT]
  have hloan : pr.2.loanAmount = self.loanAmount := by
    rw [hL2, hla, hdp]
  have hmemNew : ({ extraAmount := a, startMonth := s } : ExtraPayment) ∈
      pr.2.extraPayments := by
    rw [hE, (List.perm_insertionSort byStartMonth _).mem_iff]
    exact List.mem_append_right _ (List.mem_singleton_self _)
  have hposNew : ∀ ep ∈ pr.2.extraPayments, 0 ≤ ep.extraAmount := by
    intro ep hep
    rw [hE, (List.perm_insertionSort byStartMonth _).mem_iff] at hep
    rcases List.mem_append.mp hep with hmem | hmem
    · exact hpos ep hmem
    · rw [List.mem_singleton] at hmem
      subst hmem
      exact le_trans (by norm_num) hcent
  have hpay : ∀ m, self.paymentBeforeClamp false m ≤ pr.2.paymentBeforeClamp true m := by
    intro m
    rw [paymentBeforeClamp_false, paymentBeforeClamp_true, hM]
    exact le_add_of_nonneg_right (calculateExtraPaymentsForMonth_nonneg pr.2 m hposNew)
  have hlenE : ¬ pr.2.extraPayments.length = 0 := by
    rw [hE, (List.perm_insertionSort byStartMonth _).length_eq]
    simp
  have hadjE : pr.2.generateAdjustedSchedule =
      scheduleFrom pr.2 true 1 pr.2.totalMonths pr.2.loanAmount := by
    rw [generateAdjustedSchedule, if_neg hlenE]
    rfl
  have hstdE : self.generateSchedule =
      scheduleFrom self false 1 self.totalMonths self.loanAmount := rfl
  have hlen_le : (pr.2.generateAdjustedSchedule).length ≤ (self.generateSchedule).length := by
    rw [hadjE, hstdE, htot, hloan]
    exact scheduleFrom_length_le_of_dominates pr.2 self true false hrate hr0' htot hpay
      self.totalMonths 1 self.loanAmount self.loanAmount le_rfl
  refine ⟨hlen_le, ?_⟩
  intro k st1 hget1 hnotlast hsm
  have hk2 : k + 1 < (self.generateSchedule).length := lt_of_lt_of_le hnotlast hlen_le
  have hklt : k < (self.generateSchedule).length := by omega
  obtain ⟨hp1, -⟩ := scheduleFrom_payment_of_not_last pr.2 true pr.2.totalMonths 1
    pr.2.loanAmount k st1 (by rw [← hadjE]; exact hget1) (by rw [← hadjE]; exact hnotlast)
  obtain ⟨hp2, -⟩ := scheduleFrom_payment_of_not_last self false self.totalMonths 1
    self.loanAmount k (self.generateSchedule.get ⟨k, hklt⟩)
    (by rw [← hstdE]; exact List.get?_eq_get hklt) (by rw [← hstdE]; exact hk2)
  refine ⟨self.generateSchedule.get ⟨k, hklt⟩, List.get?_eq_get hklt, ?_⟩
  rw [hp1, hp2, paymentBeforeClamp_false, paymentBeforeClamp_true, hM]
  have hstart : ({ extraAmount := a, startMonth := s } : ExtraPayment).startMonth ≤
      ((1 + k : ℕ) : ℚ) := by
    push_cast
    push_cast at hsm
    linarith
  have hext : a ≤ pr.2.calculateExtraPaymentsForMonth (1 + k) :=
    le_calculateExtraPaymentsForMonth pr.2 (1 + k) _ hmemNew hstart hposNew
  have hsum : self.minimumPayment + 1/100 ≤
      self.minimumPayment + pr.2.calculateExtraPaymentsForMonth (1 + k) := by
    linarith
  calc roundTo 2 self.minimumPayment + 1/100
      = roundTo 2 (self.minimumPayment + 1/100) := (round2_add_cent _).symm
    _ ≤ roundTo 2 (self.minimumPayment + pr.2.calculateExtraPaymentsForMonth (1 + k)) :=
        roundTo_mono 2 hsum

end LoanAmortizationSchedule

namespace LoanAmortizationSchedule

set_option maxRecDepth 100000 in
theorem extra_payment_shortens_and_raises_witness :
    ((engineA, engineA5).2.generateAdjustedSchedule).length ≤
      (engineA.generateSchedule).length ∧
    ∀ k st1, ((engineA, engineA5).2.generateAdjustedSchedule).get? k = some st1 →
      k + 1 < ((engineA, engineA5).2.generateAdjustedSchedule).length →
      (1:ℚ) ≤ ((k + 1 : ℕ) : ℚ) →
      ∃ st2, (engineA.generateSchedule).get? k = some st2 ∧
        st2.payment + 1/100 ≤ st1.payment :=
  extra_payment_shortens_and_raises engineA 5 1 (engineA, engineA5) (by decide)
    (by norm_num) (by decide)
    (by intro ep hep; simp [engineA] at hep) (by decide) (by decide)

set_option maxRecDepth 100000 in
/-- C10: the valid parameters `paramsM` ($2,000 loan, 12% yearly = 1% monthly, 5-year
term, $1/month override, with 1 < 2000 × 1% = 20) yield a schedule whose first 59 rows
all have negative `amountTowardPrincipal` and a growing balance, which still contains
exactly `termInYears × 12 = 60` rows (only the `month == totalMonths` clamp ends it),
and whose final row is emitted with the clamped payment `startingBalance + interest`,
making its raw ending balance exactly 0. -/
theorem minimum_payment_override_negative_amortization :
    construct paramsM = .ok engineM ∧
    paramsM.minimumPayment = some 1 ∧
    (0:ℚ) < 1 ∧
    (1:ℚ) < engineM.loanAmount * engineM.monthlyInterestRate ∧
    (engineM.generateSchedule).length = engineM.termInYears * 12 ∧
    (∀ st ∈ (engineM.generateSchedule).take 59, st.amountTowardPrincipal < 0 ∧
      st.startingBalance < st.endingBalance) ∧
    (engineM.generateSchedule).getLast? =
      some (engineM.monthStatement false 60 (engineM.balanceAt false 59)) ∧
    engineM.clampedPayment false 60 (engineM.balanceAt false 59) =
      engineM.balanceAt false 59 +
        engineM.balanceAt false 59 * engineM.monthlyInterestRate ∧
    (engineM.monthStatement false 60 (engineM.balanceAt false 59)).endingBalance = 0 := by
  refine ⟨by decide, by decide, by norm_num, by decide, by decide, by decide, by decide,
    by decide, by decide⟩

end LoanAmortizationSchedule
